import Mathlib

/-!
Verification of the `CuCIMWSI` slide adapter
(`src/trident/wsi_objects/CuCIMWSI.py`).

The adapter wraps a CuCIM image handle.  We shallowly embed its data model
and operations:

* metadata is a nested string-keyed mapping (`MetaDict`), flattened by
  `_fetch_mpp` into a flat dict of lowercase dotted keys;
* numeric parsing (`float(val)` guarded by `try/except`) is modelled by
  `MetaVal`: a value either carries the rational that `float` would return
  (`MetaVal.num`) or fails to parse (`MetaVal.raw`);
* Python floats are modelled as rationals (`ℚ`);
* external libraries (CuCIM decode, cupy conversion, torch construction,
  PIL pixel operations, geopandas reads) are opaque functions supplied in
  environment records; exceptions are modelled with `Except`/`Option` and
  explicit error values (`PyErr`);
* the adapter's mutable attributes form an explicit state (`WSIState`),
  and stateful methods return the updated state, so partial updates made
  before an exception are visible, exactly as in Python.
-/

attribute [local semireducible] Rat.mul Rat.inv Rat.add Rat.sub Rat.ofScientific

namespace CuCIM

/-- ASCII lowercasing of a string, character by character; the embedding of
Python `str.lower()` on the (ASCII) metadata key names. -/
def strLower (s : String) : String := ⟨s.data.map Char.toLower⟩

/-- A scalar metadata value, as seen by `try_parse` in `_fetch_mpp`:
`num q` is a value that Python `float(...)` converts to `q`;
`raw s` is a value on which `float(...)` raises (so `try_parse` gives `None`). -/
inductive MetaVal where
  | num : ℚ → MetaVal
  | raw : String → MetaVal
deriving DecidableEq, Repr

mutual

/-- A node of the nested CuCIM metadata mapping: either a scalar value or a
nested dictionary. -/
inductive MetaTree where
  | leaf : MetaVal → MetaTree
  | node : MetaDict → MetaTree

/-- A (possibly nested) string-keyed metadata dictionary, in insertion
order. -/
inductive MetaDict where
  | nil : MetaDict
  | cons : String → MetaTree → MetaDict → MetaDict

end

/-- `try_parse` from `_fetch_mpp`: `float(val)` returning `None` on failure. -/
def try_parse : MetaVal → Option ℚ
  | .num q => some q
  | .raw _ => none

/-- `try_parse` applied to the result of a dict `.get`: a missing key gives
`None` (Python `float(None)` raises inside `try_parse`). -/
def try_parse_opt : Option MetaVal → Option ℚ
  | none => none
  | some v => try_parse v

mutual

/-- The recursive `flatten` helper of `_fetch_mpp`, on a single entry value:
a nested dict recurses with the dotted key, a scalar is emitted under the
lowercased dotted key. -/
def flattenTree : MetaTree → String → List (String × MetaVal)
  | .leaf v, key => [(strLower key, v)]
  | .node d, key => flattenDict d key
termination_by structural t => t

/-- The recursive `flatten` helper of `_fetch_mpp`, over the entries of a
dict: `key = f"{parent_key}.{k}" if parent_key else k`. -/
def flattenDict : MetaDict → String → List (String × MetaVal)
  | .nil, _ => []
  | .cons k v rest, parent =>
      let key := if parent = "" then k else parent ++ "." ++ k
      flattenTree v key ++ flattenDict rest parent
termination_by structural d => d

end

/-- Lookup in the flattened dict built by repeated `flat_meta[key] = v`
assignments: the last assignment to a key wins, a missing key gives `none`. -/
def dictGet (l : List (String × MetaVal)) (k : String) : Option MetaVal :=
  l.foldl (fun acc p => if p.1 = k then some p.2 else acc) none

/-- Flattened-metadata lookup for a nested metadata mapping: what
`flat_meta.get(k)` returns inside `_fetch_mpp` after `flatten(metadata)`. -/
def mlook (metadata : MetaDict) (k : String) : Option MetaVal :=
  dictGet (flattenDict metadata "") k

/-- The caller-supplied `custom_keys` dict of `_fetch_mpp`: it may carry a
metadata key name under `'mpp_x'` and/or `'mpp_y'`. -/
structure CustomKeys where
  mpp_x : Option String
  mpp_y : Option String
deriving DecidableEq, Repr

/-- The `fallback_keys` list of `_fetch_mpp` ("Standard fallback keys used in
SVS, NDPI, MRXS, etc."), in source order. -/
def fallback_keys : List String :=
  [ "openslide.mpp-x", "openslide.mpp-y",
    "tiff.resolution-x", "tiff.resolution-y",
    "mpp", "spacing", "microns_per_pixel",
    "aperio.mpp", "hamamatsu.mpp",
    "metadata.resolutions.level[0].spacing",
    "metadata.resolutions.level[0].physical_size.0" ]

/-- The fallback loop of `_fetch_mpp`: for each key, if `mpp_x` is unset and
the key is present, assign `mpp_x`; elif `mpp_y` is unset and the key is
present, assign `mpp_y`; break once both are set. -/
def fetchLoop (m : String → Option MetaVal) :
    List String → Option ℚ → Option ℚ → Option ℚ × Option ℚ
  | [], mx, my => (mx, my)
  | key :: rest, mx, my =>
      let p :=
        if mx.isNone ∧ (m key).isSome then
          (try_parse_opt (m key), my)
        else if my.isNone ∧ (m key).isSome then
          (mx, try_parse_opt (m key))
        else (mx, my)
      if p.1.isSome ∧ p.2.isSome then p else fetchLoop m rest p.1 p.2

/-- `CuCIMWSI._fetch_mpp`, as a function of the (parsed) nested CuCIM
metadata and the optional `custom_keys` dict.  The source first
`json.loads`-parses string metadata; the embedding takes the parsed
mapping.  `some ck` models a truthy (non-empty) `custom_keys` dict. -/
def fetch_mpp (metadata : MetaDict) (custom_keys : Option CustomKeys) : Option ℚ :=
  let m : String → Option MetaVal := mlook metadata
  let mx0 : Option ℚ :=
    match custom_keys with
    | some ck =>
        match ck.mpp_x with
        | some key => try_parse_opt (m (strLower key))
        | none => none
    | none => none
  let my0 : Option ℚ :=
    match custom_keys with
    | some ck =>
        match ck.mpp_y with
        | some key => try_parse_opt (m (strLower key))
        | none => none
    | none => none
  let p := fetchLoop m fallback_keys mx0 my0
  let my1 := if p.1.isSome ∧ p.2.isNone then p.1 else p.2
  let mx1 := if my1.isSome ∧ p.1.isNone then my1 else p.1
  match mx1, my1 with
  | some a, some b => some ((a + b) / 2)
  | _, _ => none

/-- A Python exception value, as far as this adapter distinguishes them:
`fileNotFound` models `FileNotFoundError`, `valueError` models `ValueError`,
and `generic` models a bare `Exception(...)`. -/
inductive PyErr where
  | fileNotFound : String → PyErr
  | valueError : String → PyErr
  | generic : String → PyErr
deriving DecidableEq, Repr

/-- `str(e)` of an exception: the message text used when re-wrapping. -/
def PyErr.msg : PyErr → String
  | .fileNotFound s => s
  | .valueError s => s
  | .generic s => s

/-- What `_lazy_initialize` reads off a freshly opened `CuImage` handle:
`img.size()`, the three `img.resolutions` entries, and `img.metadata`
(taken in parsed form). -/
structure ImgInfo where
  size : ℕ × ℕ
  level_count : ℕ
  level_downsamples : List ℚ
  level_dimensions : List (ℕ × ℕ)
  metadata : MetaDict

/-- The mutable attributes of a `CuCIMWSI` adapter instance that
`_lazy_initialize` touches, plus the inherited configuration attributes it
reads (`slide_path`, `tissue_seg_path`, `custom_mpp_keys`).  `C` is the
opaque payload type of a loaded tissue-contour table (a geopandas
GeoDataFrame). -/
structure WSIState (C : Type) where
  slide_path : String
  tissue_seg_path : Option String
  custom_mpp_keys : Option CustomKeys
  lazy_init : Bool
  img : Option ImgInfo
  dimensions : ℕ × ℕ
  width : ℕ
  height : ℕ
  level_count : ℕ
  level_downsamples : List ℚ
  level_dimensions : List (ℕ × ℕ)
  properties : Option MetaDict
  mpp : Option ℚ
  mag : Option ℚ
  gdf_contours : Option C

/-- The external world `_lazy_initialize` interacts with: opening a slide
with `CuImage(path)` (which may raise), reading a contour file with
`gpd.read_file(path)` (which may raise), and the inherited base-class
method `_fetch_magnification` (code outside this file; its result is an
opaque function of the metadata and the custom keys). -/
structure InitEnv (C : Type) where
  cuImageOpen : String → Except PyErr ImgInfo
  gpdRead : String → Except PyErr C
  fetchMag : MetaDict → Option CustomKeys → Option ℚ

/-- `CuCIMWSI._lazy_initialize` as a state transition.  It returns the
updated adapter state together with the raised exception, if any; attribute
assignments made before an exception persist, as in Python.  Every failure
inside the `try` block — including the re-raised tissue-file
`FileNotFoundError` — is caught by `except Exception` and re-raised as
`Exception(f"Error initializing WSI: {e}")`. -/
def lazy_initialize_fn (env : InitEnv C) (s : WSIState C) :
    WSIState C × Option PyErr :=
  if s.lazy_init then (s, none)
  else
    match env.cuImageOpen s.slide_path with
    | .error e => (s, some (.generic ("Error initializing WSI: " ++ e.msg)))
    | .ok info =>
        let s1 : WSIState C :=
          { s with
            img := some info
            dimensions := info.size
            width := info.size.1
            height := info.size.2
            level_count := info.level_count
            level_downsamples := info.level_downsamples
            level_dimensions := info.level_dimensions
            properties := some info.metadata
            mpp := if s.mpp = none then fetch_mpp info.metadata s.custom_mpp_keys
                   else s.mpp }
        let s2 : WSIState C :=
          { s1 with
            mag := env.fetchMag info.metadata s.custom_mpp_keys
            lazy_init := true }
        match s2.tissue_seg_path with
        | none => (s2, none)
        | some p =>
            match env.gpdRead p with
            | .ok g => ({ s2 with gdf_contours := some g }, none)
            | .error e =>
                let e2 := match e with
                  | .fileNotFound _ =>
                      PyErr.fileNotFound ("Tissue segmentation file not found: " ++ p)
                  | _ => e
                (s2, some (.generic ("Error initializing WSI: " ++ e2.msg)))

/-- The `_fetch_mpp` method viewed at the adapter level: it reads
`self.img.metadata` and writes no attribute, so the state comes back
unchanged; `none` as first component models the `AttributeError` a call on
an un-opened adapter (`self.img` unset) would raise. -/
def fetch_mpp_method (s : WSIState C) (custom_keys : Option CustomKeys) :
    Option (Option ℚ) × WSIState C :=
  match s.img with
  | some info => (some (fetch_mpp info.metadata custom_keys), s)
  | none => (none, s)

/-- `CuCIMWSI.get_dimensions`: returns the cached `dimensions` attribute. -/
def get_dimensions (s : WSIState C) : ℕ × ℕ :=
  s.dimensions

/-- `'cuda' in device`: Python substring containment on strings. -/
def strContains (hay needle : String) : Bool :=
  (List.range (hay.data.length + 1)).any
    (fun i => needle.data.isPrefixOf (hay.data.drop i))

/-- A PIL image: its `size` is `(width, height)` and its pixel content is an
opaque host payload of type `H`. -/
structure PILImage (H : Type) where
  width : ℕ
  height : ℕ
  data : H

/-- The external operations `read_region` and `get_thumbnail` delegate to:
`R` is the type of a device region returned by `CuImage.read_region`, `H` a
host pixel buffer (numpy array or PIL pixel data), `T` a torch tensor. -/
structure ReadEnv (R H T : Type) where
  /-- `self.img.read_region(location, level, size, device)`. -/
  decode : (ℤ × ℤ) → ℕ → (ℕ × ℕ) → String → R
  /-- `cp.asnumpy(region)`. -/
  asnumpy : R → H
  /-- `torch.as_tensor(region, device=device)`. -/
  asTensor : R → String → T
  /-- `torch.from_numpy(array)`. -/
  fromNumpy : H → T
  /-- the `(width, height)` a host array yields under `Image.fromarray`. -/
  hostDims : H → ℕ × ℕ
  /-- pixel effect of `.convert("RGB")`. -/
  rgbOf : H → H
  /-- pixel effect of `.resize(sz, resample=Image.BILINEAR)`. -/
  resample : H → ℕ × ℕ → H

/-- `Image.fromarray(a)`: a PIL image whose size comes from the array. -/
def fromarray (env : ReadEnv R H T) (a : H) : PILImage H :=
  ⟨(env.hostDims a).1, (env.hostDims a).2, a⟩

/-- `img.convert("RGB")`: size is preserved, pixels are converted. -/
def convertRGB (env : ReadEnv R H T) (img : PILImage H) : PILImage H :=
  { img with data := env.rgbOf img.data }

/-- `img.resize(sz, resample=Image.BILINEAR)`: the result has exactly the
requested PIL size `sz = (width, height)`. -/
def resizeImg (env : ReadEnv R H T) (img : PILImage H) (sz : ℕ × ℕ) : PILImage H :=
  ⟨sz.1, sz.2, env.resample img.data sz⟩

/-- The value a `read_region` call produces, per requested representation. -/
inductive RRResult (H T : Type) where
  | numpyArr : H → RRResult H T
  | torchTensor : T → RRResult H T
  | pilImage : PILImage H → RRResult H T

/-- `CuCIMWSI.read_region`.  The first component is the returned value or
the raised exception; the second component records whether
`self.img.read_region` was invoked (the decode happens unconditionally on
the first line of the method body, before the `read_as` dispatch). -/
def read_region (env : ReadEnv R H T) (location : ℤ × ℤ) (level : ℕ)
    (size : ℕ × ℕ) (device : String) (read_as : String) :
    Except PyErr (RRResult H T) × Bool :=
  let region := env.decode location level size device
  let res : Except PyErr (RRResult H T) :=
    if read_as = "torch" then
      if strContains device "cuda" then
        .ok (.torchTensor (env.asTensor region device))
      else
        .ok (.torchTensor (env.fromNumpy (env.asnumpy region)))
    else if read_as = "numpy" then
      .ok (.numpyArr (env.asnumpy region))
    else if read_as = "pil" then
      .ok (.pilImage (convertRGB env (fromarray env (env.asnumpy region))))
    else
      .error (.valueError ("Unsupported read_as value: " ++ read_as))
  (res, true)

/-- `CuCIMWSI.get_thumbnail`.  `bestLevel` stands for the inherited
base-class method `get_best_level_and_custom_downsample` (code outside this
file; the theorems below hold for every choice of it — only the first
component, the level, is used).  `none` models the `IndexError` raised when
that level indexes outside `level_dimensions`. -/
def get_thumbnail (env : ReadEnv R H T) (bestLevel : ℚ → ℕ × ℚ)
    (s : WSIState C) (size : ℕ × ℕ) : Option (PILImage H) :=
  let target_width := size.1
  let target_height := size.2
  let downsample_x : ℚ := (s.width : ℚ) / (target_width : ℚ)
  let downsample_y : ℚ := (s.height : ℚ) / (target_height : ℚ)
  let desired_downsample := max downsample_x downsample_y
  let level := (bestLevel desired_downsample).1
  match s.level_dimensions.get? level with
  | none => none
  | some lwh =>
      match (read_region env ((0 : ℤ), (0 : ℤ)) level lwh "cpu" "pil").1 with
      | .ok (.pilImage region) =>
          some (resizeImg env (convertRGB env region) (size.2, size.1))
      | _ => none

/-! Test fixtures: concrete metadata mappings used by concrete-input
theorems. -/

/-- Metadata with `openslide.mpp-x = 0.25` and `openslide.mpp-y = 0.26`. -/
def metaC4 : MetaDict :=
  .cons "openslide.mpp-x" (.leaf (.num (1/4)))
    (.cons "openslide.mpp-y" (.leaf (.num (13/50))) .nil)

/-- Metadata whose only calibration-relevant key is `mpp = 3`. -/
def metaOnlyMpp : MetaDict := .cons "mpp" (.leaf (.num 3)) .nil

/-- Metadata with no calibration-relevant key at all. -/
def metaNoKeys : MetaDict := .cons "vendor" (.leaf (.raw "acme")) .nil

/-- Metadata carrying a custom calibration key `Custom.X = 1` together with
`openslide.mpp-x = 3` and `openslide.mpp-y = q`. -/
def metaCross (q : ℚ) : MetaDict :=
  .cons "Custom.X" (.leaf (.num 1))
    (.cons "openslide.mpp-x" (.leaf (.num 3))
      (.cons "openslide.mpp-y" (.leaf (.num q)) .nil))

/-- Custom keys that resolve `mpp_x` (to metadata key `custom.x`) but carry
no `mpp_y` entry. -/
def customCross : CustomKeys := ⟨some "custom.x", none⟩

/-- A demo `CuImage` payload for concrete-input theorems. -/
def infoDemo : ImgInfo :=
  { size := (1024, 768)
    level_count := 1
    level_downsamples := [1]
    level_dimensions := [(1024, 768)]
    metadata := metaC4 }

/-- An environment whose slide open and contour read both succeed. -/
def envInitOk : InitEnv ℕ :=
  { cuImageOpen := fun _ => .ok infoDemo
    gpdRead := fun _ => .ok 0
    fetchMag := fun _ _ => none }

/-- An environment whose slide open fails with a file-not-found error, as
`CuImage` does on a nonexistent path. -/
def envInitMissing : InitEnv ℕ :=
  { cuImageOpen := fun _ =>
      .error (.fileNotFound "No such file or directory: /data/missing.svs")
    gpdRead := fun _ => .ok 0
    fetchMag := fun _ _ => none }

/-- An environment whose slide open succeeds but whose contour read fails
with a file-not-found error. -/
def envInitBadSeg : InitEnv ℕ :=
  { cuImageOpen := fun _ => .ok infoDemo
    gpdRead := fun p =>
      .error (.fileNotFound ("No such file or directory: " ++ p))
    fetchMag := fun _ _ => none }

/-- A freshly constructed, not yet initialized adapter state. -/
def stFresh : WSIState ℕ :=
  { slide_path := "/data/slide.svs"
    tissue_seg_path := none
    custom_mpp_keys := none
    lazy_init := false
    img := none
    dimensions := (0, 0)
    width := 0
    height := 0
    level_count := 0
    level_downsamples := []
    level_dimensions := []
    properties := none
    mpp := none
    mag := none
    gdf_contours := none }

/-- A fresh adapter state that also carries a tissue-contour path. -/
def stFreshSeg : WSIState ℕ :=
  { stFresh with tissue_seg_path := some "/data/slide.geojson" }

/-- An adapter state on which initialization has already completed. -/
def stInited : WSIState ℕ :=
  { slide_path := "/data/slide.svs"
    tissue_seg_path := none
    custom_mpp_keys := none
    lazy_init := true
    img := some infoDemo
    dimensions := (1024, 768)
    width := 1024
    height := 768
    level_count := 1
    level_downsamples := [1]
    level_dimensions := [(1024, 768)]
    properties := some metaC4
    mpp := some (51/200)
    mag := none
    gdf_contours := none }

/-- The adapter state after `_lazy_initialize` has successfully opened the
slide and recorded its metadata (the assignments of the `try` block up to
and including `self.lazy_init = True`). -/
def openedState {C : Type} (env : InitEnv C) (s : WSIState C)
    (info : ImgInfo) : WSIState C :=
  { s with
    img := some info
    dimensions := info.size
    width := info.size.1
    height := info.size.2
    level_count := info.level_count
    level_downsamples := info.level_downsamples
    level_dimensions := info.level_dimensions
    properties := some info.metadata
    mpp := if s.mpp = none then fetch_mpp info.metadata s.custom_mpp_keys
           else s.mpp
    mag := env.fetchMag info.metadata s.custom_mpp_keys
    lazy_init := true }

/-- A concrete read environment over `ℕ` payloads, for concrete-input
theorems: each external operation is an injective arithmetic tag. -/
def envRead : ReadEnv ℕ ℕ ℕ :=
  { decode := fun _ _ _ _ => 7
    asnumpy := fun r => r + 1
    asTensor := fun r _ => r + 2
    fromNumpy := fun h => h + 3
    hostDims := fun _ => (16, 16)
    rgbOf := fun h => h * 2
    resample := fun h _ => h + 100 }

/-- A level-selection function for concrete thumbnail runs (standing in for
the inherited `get_best_level_and_custom_downsample`): always level 0. -/
def bestLevel0 : ℚ → ℕ × ℚ := fun _ => (0, 1)

/-- A 1024×1024 single-level adapter state for thumbnail runs. -/
def stThumb : WSIState ℕ :=
  { stInited with
    dimensions := (1024, 1024)
    width := 1024
    height := 1024
    level_dimensions := [(1024, 1024)] }

end CuCIM

namespace CuCIM

/-- If none of the keys in `keys` is present in the flat metadata, the
fallback loop leaves both axis variables unchanged. -/
lemma fetchLoop_all_absent (m : String → Option MetaVal) (keys : List String)
    (mx my : Option ℚ) (h : ∀ k ∈ keys, m k = none) :
    fetchLoop m keys mx my = (mx, my) := by
  induction keys with
  | nil => rfl
  | cons k rest ih =>
      have hk : m k = none := h k (List.mem_cons_self k rest)
      have hrest : ∀ k ∈ rest, m k = none := fun x hx => h x (List.mem_cons_of_mem k hx)
      simp only [fetchLoop, hk, Option.isSome_none, and_false, if_false,
        Bool.false_eq_true, ite_self]
      split
      · rfl
      · exact ih hrest

/-- If `mpp` is the only fallback key present and it parses to `v`, the
fallback loop (entered with both axes unset) produces `(some v, none)`. -/
lemma fetchLoop_only_mpp (m : String → Option MetaVal) (v : ℚ)
    (hm : m "mpp" = some (.num v))
    (h : ∀ k ∈ fallback_keys, k ≠ "mpp" → m k = none) :
    fetchLoop m fallback_keys none none = (some v, none) := by
  have h1 : m "openslide.mpp-x" = none := by
    refine h _ ?_ (by decide)
    simp [fallback_keys]
  have h2 : m "openslide.mpp-y" = none := by
    refine h _ ?_ (by decide)
    simp [fallback_keys]
  have h3 : m "tiff.resolution-x" = none := by
    refine h _ ?_ (by decide)
    simp [fallback_keys]
  have h4 : m "tiff.resolution-y" = none := by
    refine h _ ?_ (by decide)
    simp [fallback_keys]
  have h5 : m "spacing" = none := by
    refine h _ ?_ (by decide)
    simp [fallback_keys]
  have h6 : m "microns_per_pixel" = none := by
    refine h _ ?_ (by decide)
    simp [fallback_keys]
  have h7 : m "aperio.mpp" = none := by
    refine h _ ?_ (by decide)
    simp [fallback_keys]
  have h8 : m "hamamatsu.mpp" = none := by
    refine h _ ?_ (by decide)
    simp [fallback_keys]
  have h9 : m "metadata.resolutions.level[0].spacing" = none := by
    refine h _ ?_ (by decide)
    simp [fallback_keys]
  have h10 : m "metadata.resolutions.level[0].physical_size.0" = none := by
    refine h _ ?_ (by decide)
    simp [fallback_keys]
  simp [fallback_keys, fetchLoop, h1, h2, h3, h4, h5, h6, h7, h8, h9, h10,
    hm, try_parse_opt, try_parse]

/-- Claim C4: for metadata containing `openslide.mpp-x = 0.25` and
`openslide.mpp-y = 0.26` and no caller-supplied custom keys, `_fetch_mpp`
returns `0.255`, the average of the two axes. -/
theorem fetch_mpp_openslide_avg : fetch_mpp metaC4 none = some (51/200) := by
  decide

/-- Claim C5: if `mpp` is the only calibration-relevant (fallback) key and
parses to `v`, `_fetch_mpp` returns `v` (the single axis is mirrored, so
the average is `v` itself); if no fallback key is present and no custom
keys are supplied, `_fetch_mpp` returns `None`. -/
theorem fetch_mpp_single_key_and_empty :
    (∀ (metadata : MetaDict) (v : ℚ),
        mlook metadata "mpp" = some (.num v) →
        (∀ k ∈ fallback_keys, k ≠ "mpp" → mlook metadata k = none) →
        fetch_mpp metadata none = some v) ∧
    (∀ metadata : MetaDict,
        (∀ k ∈ fallback_keys, mlook metadata k = none) →
        fetch_mpp metadata none = none) := by
  constructor
  · intro metadata v hm h
    have hloop := fetchLoop_only_mpp (mlook metadata) v hm h
    have havg : (v + v) / 2 = v := by ring
    simp [fetch_mpp, hloop, havg]
  · intro metadata h
    have hloop := fetchLoop_all_absent (mlook metadata) fallback_keys none none h
    simp [fetch_mpp, hloop]

/-- Witness for claim C5 at concrete metadata: `{'mpp': 3}` yields `3` and
`{'vendor': 'acme'}` yields `None`. -/
theorem fetch_mpp_single_key_and_empty_witness :
    fetch_mpp metaOnlyMpp none = some 3 ∧ fetch_mpp metaNoKeys none = none :=
  ⟨fetch_mpp_single_key_and_empty.1 metaOnlyMpp 3 (by decide) (by decide),
   fetch_mpp_single_key_and_empty.2 metaNoKeys (by decide)⟩

/-- Claim C6: when custom keys resolve `mpp_x` (here to `1`, via metadata
key `custom.x`) but not `mpp_y`, and the metadata contains both
`openslide.mpp-x = 3` and `openslide.mpp-y = q`, the fallback loop assigns
the `openslide.mpp-x` value to the `mpp_y` variable and never consults
`openslide.mpp-y`: the result is `(1 + 3) / 2 = 2` for every value `q` of
the skipped y-axis key. -/
theorem fetch_mpp_crossed_axis :
    ∀ q : ℚ, fetch_mpp (metaCross q) (some customCross) = some 2 := by
  intro q
  simp [fetch_mpp, metaCross, customCross, mlook, flattenDict, flattenTree,
    strLower, dictGet, fallback_keys, fetchLoop, try_parse_opt, try_parse]
  norm_num

/-- Witness for claim C6 at the concrete skipped-key value `q = 5`: were
`openslide.mpp-y` consulted, the result would be `(1 + 5) / 2 = 3`, not
`2`. -/
theorem fetch_mpp_crossed_axis_witness :
    fetch_mpp (metaCross 5) (some customCross) = some 2 :=
  fetch_mpp_crossed_axis 5

/-- Claim C7: `_fetch_mpp` is a pure function of the metadata and custom
keys — the method writes no adapter attribute (the state comes back
unchanged), and repeating the call on the post-state returns the same
result. -/
theorem fetch_mpp_method_pure {C : Type} (s : WSIState C)
    (ck : Option CustomKeys) :
    (fetch_mpp_method s ck).2 = s ∧
    fetch_mpp_method (fetch_mpp_method s ck).2 ck = fetch_mpp_method s ck := by
  have hframe : (fetch_mpp_method s ck).2 = s := by
    cases h : s.img <;> simp [fetch_mpp_method, h]
  exact ⟨hframe, by rw [hframe]⟩

/-- Witness for claim C7 on a concrete initialized adapter. -/
theorem fetch_mpp_method_pure_witness :
    (fetch_mpp_method stInited none).2 = stInited ∧
    fetch_mpp_method (fetch_mpp_method stInited none).2 none =
      fetch_mpp_method stInited none :=
  fetch_mpp_method_pure stInited none

/-! Initialization: helper lemma and fixtures. -/

/-- An already-initialized adapter is left untouched by `_lazy_initialize`:
the whole body is guarded by `if not self.lazy_init`. -/
lemma lazy_initialize_noop {C : Type} (env : InitEnv C) (s : WSIState C)
    (h : s.lazy_init = true) : lazy_initialize_fn env s = (s, none) := by
  simp [lazy_initialize_fn, h]

/-- Claim C2 (code bug in the source): initializing an adapter whose slide
path does not resolve surfaces the generic wrapped
`Exception("Error initializing WSI: ...")`, never a `FileNotFoundError` —
the `except Exception` clause of `_lazy_initialize` wraps the open failure,
contradicting the method's own docstring ("Raises FileNotFoundError: If the
WSI file ... cannot be found"). -/
theorem lazy_initialize_missing_slide_generic :
    lazy_initialize_fn envInitMissing { stFresh with slide_path := "/data/missing.svs" } =
      ({ stFresh with slide_path := "/data/missing.svs" },
       some (.generic
         "Error initializing WSI: No such file or directory: /data/missing.svs")) ∧
    ∀ m : String,
      (lazy_initialize_fn envInitMissing
        { stFresh with slide_path := "/data/missing.svs" }).2 ≠
        some (.fileNotFound m) := by
  refine ⟨rfl, ?_⟩
  intro m
  simp [lazy_initialize_fn, envInitMissing, stFresh, PyErr.msg]

/-- Claim C8: when `lazy_init` already holds, `_lazy_initialize` is a
no-op — the state (every attribute) is returned unchanged and no error is
raised. -/
theorem lazy_initialize_idempotent {C : Type} (env : InitEnv C)
    (s : WSIState C) (h : s.lazy_init = true) :
    lazy_initialize_fn env s = (s, none) :=
  lazy_initialize_noop env s h

/-- Witness for claim C8 on a concrete initialized adapter. -/
theorem lazy_initialize_idempotent_witness :
    stInited.lazy_init = true ∧
    lazy_initialize_fn envInitOk stInited = (stInited, none) :=
  ⟨rfl, lazy_initialize_idempotent envInitOk stInited rfl⟩

/-- Run shape of `_lazy_initialize` when the slide opens but the
tissue-contour read raises: the partially updated state (already marked
initialized) comes back together with the wrapped generic error. -/
lemma lazy_initialize_seg_error {C : Type} (env : InitEnv C)
    (s : WSIState C) (info : ImgInfo) (p : String) (er : PyErr)
    (h0 : s.lazy_init = false)
    (hopen : env.cuImageOpen s.slide_path = .ok info)
    (hseg : s.tissue_seg_path = some p)
    (hgpd : env.gpdRead p = .error er) :
    lazy_initialize_fn env s =
      (openedState env s info,
       some (.generic ("Error initializing WSI: " ++
         match er with
         | .fileNotFound _ => "Tissue segmentation file not found: " ++ p
         | _ => er.msg))) := by
  cases er <;>
    simp [lazy_initialize_fn, h0, hopen, hseg, hgpd, openedState, PyErr.msg]

/-- Claim C10: `lazy_init` is set before the tissue-contour read, so a
failing contour read raises (the wrapped generic error) while the adapter
stays marked initialized with `gdf_contours` untouched, and a subsequent
`_lazy_initialize` is a no-op that never retries the contour load. -/
theorem lazy_initialize_contour_failure {C : Type} (env : InitEnv C)
    (s : WSIState C) (info : ImgInfo) (p : String) (er : PyErr)
    (h0 : s.lazy_init = false)
    (hopen : env.cuImageOpen s.slide_path = .ok info)
    (hseg : s.tissue_seg_path = some p)
    (hgpd : env.gpdRead p = .error er) :
    ∃ (s2 : WSIState C) (msg : String),
      lazy_initialize_fn env s = (s2, some (.generic msg)) ∧
      s2.lazy_init = true ∧
      s2.gdf_contours = s.gdf_contours ∧
      lazy_initialize_fn env s2 = (s2, none) := by
  have hrun := lazy_initialize_seg_error env s info p er h0 hopen hseg hgpd
  exact ⟨openedState env s info, _, hrun, rfl, rfl,
    lazy_initialize_noop env _ rfl⟩

/-- Witness for claim C10 on a concrete adapter whose contour file read
fails: the surfaced error is the wrapped generic one, the state stays
initialized, and re-initialization is a no-op. -/
theorem lazy_initialize_contour_failure_witness :
    ∃ (s2 : WSIState ℕ) (msg : String),
      lazy_initialize_fn envInitBadSeg stFreshSeg = (s2, some (.generic msg)) ∧
      s2.lazy_init = true ∧
      s2.gdf_contours = stFreshSeg.gdf_contours ∧
      lazy_initialize_fn envInitBadSeg s2 = (s2, none) :=
  lazy_initialize_contour_failure envInitBadSeg stFreshSeg infoDemo
    "/data/slide.geojson"
    (.fileNotFound "No such file or directory: /data/slide.geojson")
    rfl rfl rfl rfl

/-! Region reads and thumbnails: fixtures and theorems. -/

/-- Counterexample to claim C1 as stated: with `read_as='bogus'` the call
does raise `ValueError`, but the second component witnesses that
`self.img.read_region` was invoked first — the decode of the region is
performed before the format check, not skipped. -/
theorem read_region_bad_format_still_decodes :
    read_region envRead ((0 : ℤ), (0 : ℤ)) 0 (4, 4) "cpu" "bogus" =
      (.error (.valueError "Unsupported read_as value: bogus"), true) := by
  rfl

/-- Claim C1 (amended): for every location, level, size and device, a
`read_as` value other than `'numpy'`, `'torch'`, `'pil'` raises
`ValueError(f"Unsupported read_as value: {read_as}")` — but only after the
underlying region decode has been performed. -/
theorem read_region_bad_format {R H T : Type} (env : ReadEnv R H T)
    (location : ℤ × ℤ) (level : ℕ) (size : ℕ × ℕ)
    (device read_as : String)
    (h1 : read_as ≠ "torch") (h2 : read_as ≠ "numpy") (h3 : read_as ≠ "pil") :
    read_region env location level size device read_as =
      (.error (.valueError ("Unsupported read_as value: " ++ read_as)), true) := by
  simp [read_region, h1, h2, h3]

/-- Witness for claim C1 (amended) at `read_as='bogus'`. -/
theorem read_region_bad_format_witness :
    read_region envRead ((0 : ℤ), (0 : ℤ)) 0 (4, 4) "cuda:0" "bogus" =
      (.error (.valueError ("Unsupported read_as value: " ++ "bogus")), true) :=
  read_region_bad_format envRead ((0 : ℤ), (0 : ℤ)) 0 (4, 4) "cuda:0" "bogus"
    (by decide) (by decide) (by decide)

/-- Claim C9: on the same inputs, `read_as='numpy'` and `read_as='pil'`
yield pixel-identical data modulo the 3-channel conversion: the PIL result
is exactly `Image.fromarray` of the array the numpy path returns, followed
by `.convert("RGB")`. -/
theorem read_region_numpy_pil_agree {R H T : Type} (env : ReadEnv R H T)
    (location : ℤ × ℤ) (level : ℕ) (size : ℕ × ℕ) (device : String) (a : H)
    (h : (read_region env location level size device "numpy").1 =
      .ok (.numpyArr a)) :
    (read_region env location level size device "pil").1 =
      .ok (.pilImage (convertRGB env (fromarray env a))) := by
  have ha : env.asnumpy (env.decode location level size device) = a := by
    simpa [read_region] using h
  simp [read_region, ha]

/-- Witness for claim C9 at a concrete environment: the numpy path returns
the array `8`, and the PIL path returns that same array wrapped and
RGB-converted. -/
theorem read_region_numpy_pil_agree_witness :
    (read_region envRead ((0 : ℤ), (0 : ℤ)) 0 (2, 2) "cpu" "pil").1 =
      .ok (.pilImage (convertRGB envRead (fromarray envRead 8))) :=
  read_region_numpy_pil_agree envRead ((0 : ℤ), (0 : ℤ)) 0 (2, 2) "cpu" 8 rfl

/-- Claim C3 (code bug in the source): requesting a `(512, 256)` thumbnail
of a 1024×1024 slide returns an image of width 256 and height 512 — the
source resizes to `(size[1], size[0])`, transposing the requested width and
height, although its own docstring and local variable names
(`target_width, target_height = size`) take `size` as `(width, height)`. -/
theorem get_thumbnail_transposes_size :
    (get_thumbnail envRead bestLevel0 stThumb (512, 256)).map
      (fun img => (img.width, img.height)) = some (256, 512) := by
  rfl

end CuCIM
